import Mathlib

/-!
Verification development for the voice-clone repository.

The definitions below are a shallow embedding of the TypeScript sources:

* `src/lib/whisper.ts` — the simulated Whisper speech-to-text service with
  its streaming-session map (`WhisperService`);
* `src/lib/database.ts` — the SQLite access layer (voice_models and
  audio_records tables);
* `src/app/api/tts/route.ts`, `src/app/api/stt/route.ts`,
  `src/app/api/stt/stream/route.ts` — the Next.js HTTP handlers.

Conventions of the embedding:

* JavaScript millisecond timestamps (`Date.now()`) are `Nat` values passed
  in explicitly as `now`.
* `Math.random()` draws are passed in explicitly as oracle parameters: a
  `Nat` index oracle for `Math.floor(Math.random() * list.length)` picks
  (consumed modulo the list length) and a rational in `[0, 1)` for
  confidence computations.
* A node `Buffer` is modelled as its byte list, `List Nat`.
* The JavaScript `Map` is modelled as an association list with the usual
  first-match lookup; `set` replaces in place, `delete` removes the first
  matching entry, mirroring `Map` semantics on the unique-key states a
  `Map` can actually be in.
* Source field names `partial`, `partialText`, `partialResults`,
  `isPartial` are rendered as `partList`, `partText`, `partResults`,
  `isPart` (`partial` is a Lean keyword).
-/

namespace VoiceClone

/-- A node `Buffer`, modelled as its list of bytes. -/
abbrev Buffer := List Nat

/-- One entry of `WhisperService.streamingSessions`
(`src/lib/whisper.ts`, the map value type). -/
structure StreamingSession where
  sessionId : String
  language : String
  model : String
  audioBuffer : List Buffer
  partResults : List String
  createdAt : Nat
  lastActivity : Nat
deriving DecidableEq

/-- The `streamingSessions` JavaScript `Map`, as an association list. -/
abbrev SessionMap := List (String × StreamingSession)

/-- `Map.get`: first entry with the given key. -/
def SessionMap.get? : SessionMap → String → Option StreamingSession
  | [], _ => none
  | (k', v) :: rest, k => if k' = k then some v else SessionMap.get? rest k

/-- `Map.set`: replace the entry in place if the key is present, else append. -/
def SessionMap.set : SessionMap → String → StreamingSession → SessionMap
  | [], k, v => [(k, v)]
  | (k', v') :: rest, k, v =>
    if k' = k then (k, v) :: rest else (k', v') :: SessionMap.set rest k v

/-- `Map.delete`: remove the first entry with the given key. -/
def SessionMap.delete : SessionMap → String → SessionMap
  | [], _ => []
  | (k', v') :: rest, k => if k' = k then rest else (k', v') :: SessionMap.delete rest k

/-- `const expiredThreshold = 30 * 60 * 1000` in `cleanupExpiredSessions`. -/
def expiredThreshold : Nat := 30 * 60 * 1000

/-- The eviction test of `cleanupExpiredSessions`:
`now - session.lastActivity > expiredThreshold`. -/
def isExpired (now : Nat) (s : StreamingSession) : Bool :=
  expiredThreshold < now - s.lastActivity

/-- `WhisperService.cleanupExpiredSessions`: delete every session whose
idle time exceeds the threshold, keep the rest. -/
def cleanupExpiredSessions (now : Nat) (m : SessionMap) : SessionMap :=
  m.filter (fun e => ! isExpired now e.2)

/-- JavaScript `x || d` on an optional string field: the default applies
when the field is absent or the empty string (falsy). -/
def jsOrDefault (o : Option String) (d : String) : String :=
  match o with
  | some s => if s = "" then d else s
  | none => d

/-- Argument of `WhisperService.initStreamingSession`
(interface `StreamingSessionInit`). -/
structure StreamingSessionInit where
  sessionId : String
  language : Option String
  model : Option String

/-- `WhisperService.initStreamingSession`: sweep expired sessions, then
store a fresh session under `params.sessionId`.  The returned `Bool` is
the `success` field of the result (the catch branch is unreachable in
the embedding, as the body performs no throwing operation). -/
def initStreamingSession (now : Nat) (params : StreamingSessionInit) (m : SessionMap) :
    SessionMap × Bool :=
  let cleaned := cleanupExpiredSessions now m
  (SessionMap.set cleaned params.sessionId
    { sessionId := params.sessionId
      language := jsOrDefault params.language "auto"
      model := jsOrDefault params.model "base"
      audioBuffer := []
      partResults := []
      createdAt := now
      lastActivity := now }, true)

theorem SessionMap.mem_set_of_ne (m : SessionMap) (tk : String) (v : StreamingSession)
    (k : String) (s : StreamingSession) (h : k ≠ tk) :
    (k, s) ∈ SessionMap.set m tk v ↔ (k, s) ∈ m := by
  induction m with
  | nil =>
    simp only [SessionMap.set, List.mem_singleton, List.not_mem_nil, iff_false]
    intro he
    exact h (congrArg Prod.fst he)
  | cons e rest ih =>
    obtain ⟨ek, ev⟩ := e
    simp only [SessionMap.set]
    by_cases hk : ek = tk
    · rw [if_pos hk]
      subst hk
      simp only [List.mem_cons, Prod.mk.injEq]
      constructor
      · rintro (⟨h1, h2⟩ | he)
        · exact absurd h1 h
        · exact Or.inr he
      · rintro (⟨h1, h2⟩ | he)
        · exact absurd h1 h
        · exact Or.inr he
    · rw [if_neg hk]
      simp only [List.mem_cons, Prod.mk.injEq, ih]

/-- Session used in the C1 witness: idle for well under 30 minutes at the
time of the sweep. -/
def c1Session : StreamingSession :=
  { sessionId := "old", language := "zh", model := "base", audioBuffer := [],
    partResults := [], createdAt := 100, lastActivity := 500000 }

/-- C1: whenever a new streaming session is initialized via
`initStreamingSession`, the expiry sweep removes from the session map
exactly those sessions whose `lastActivity` timestamp is more than
30 minutes (1800000 ms) before the current time; every session with
activity within the last 30 minutes remains in the map unchanged (the
key being initialized itself aside). -/
theorem initStreamingSession_expiry_sweep (now : Nat) (params : StreamingSessionInit)
    (m : SessionMap) (k : String) (s : StreamingSession) (hk : k ≠ params.sessionId) :
    ((k, s) ∈ (initStreamingSession now params m).1 ↔
      ((k, s) ∈ m ∧ now - s.lastActivity ≤ 1800000)) ∧
    ((k, s) ∈ cleanupExpiredSessions now m ↔
      ((k, s) ∈ m ∧ now - s.lastActivity ≤ 1800000)) := by
  have hc : (k, s) ∈ cleanupExpiredSessions now m ↔
      ((k, s) ∈ m ∧ now - s.lastActivity ≤ 1800000) := by
    simp only [cleanupExpiredSessions, List.mem_filter, isExpired, expiredThreshold,
      Bool.not_eq_true', decide_eq_false_iff_not, Nat.not_lt]
  refine ⟨?_, hc⟩
  simp only [initStreamingSession]
  rw [SessionMap.mem_set_of_ne _ _ _ _ _ hk]
  exact hc

/-- C1 witness: the sweep run by `initStreamingSession` at time 2000000
keeps the distinct key `"old"` whose session was active 1500000 ms ago. -/
theorem initStreamingSession_expiry_sweep_witness :
    ("old" : String) ≠ "new" ∧
    ((("old", c1Session) ∈
        (initStreamingSession 2000000 ⟨"new", none, none⟩ [("old", c1Session)]).1 ↔
      (("old", c1Session) ∈ [("old", c1Session)] ∧
        2000000 - c1Session.lastActivity ≤ 1800000)) ∧
     (("old", c1Session) ∈ cleanupExpiredSessions 2000000 [("old", c1Session)] ↔
      (("old", c1Session) ∈ [("old", c1Session)] ∧
        2000000 - c1Session.lastActivity ≤ 1800000))) :=
  ⟨by decide,
   initStreamingSession_expiry_sweep 2000000 ⟨"new", none, none⟩
     [("old", c1Session)] "old" c1Session (by decide)⟩

/-- Return type of `WhisperService.getLanguageSampleTexts`: the canned
partial-result strings (source field `partial`) and final-result strings
(source field `final`) for one language. -/
structure SampleTexts where
  partList : List String
  finalList : List String
deriving DecidableEq

/-- The `'zh'` entry of the `sampleTexts` table in
`getLanguageSampleTexts`. -/
def zhSampleTexts : SampleTexts :=
  { partList :=
      ["你好...",
       "你好，我是...",
       "你好，我是李心司...",
       "你好，我是李心司，这是...",
       "你好，我是李心司，这是一段...",
       "你好，我是李心司，这是一段中文语音..."]
    finalList :=
      ["你好，我是李心司，这是一段中文语音测试。",
       "今天天气很好，适合出去散步。",
       "我正在测试实时语音识别功能，希望能够准确识别中文。",
       "这是一个语音克隆项目的实时转录测试。"] }

/-- The `'en'` entry of the `sampleTexts` table in
`getLanguageSampleTexts`. -/
def enSampleTexts : SampleTexts :=
  { partList :=
      ["Hello...",
       "Hello, this is...",
       "Hello, this is a test...",
       "Hello, this is a test audio...",
       "Hello, this is a test audio transcription..."]
    finalList :=
      ["Hello, this is a test audio transcription in English.",
       "The weather is nice today, perfect for a walk outside.",
       "I am testing the real-time speech recognition functionality.",
       "This is a real-time transcription test for a voice cloning project."] }

/-- The `'ja'` entry of the `sampleTexts` table in
`getLanguageSampleTexts`. -/
def jaSampleTexts : SampleTexts :=
  { partList :=
      ["こんにちは...",
       "こんにちは、これは...",
       "こんにちは、これは日本語の...",
       "こんにちは、これは日本語の音声テスト..."]
    finalList :=
      ["こんにちは、これは日本語の音声テストです。",
       "今日は天気がいいですね。",
       "リアルタイム音声認識機能をテストしています。"] }

/-- `WhisperService.getLanguageSampleTexts`: keyed table with fallback to
the `'zh'` entry for every other language. -/
def getLanguageSampleTexts (language : String) : SampleTexts :=
  if language = "zh" then zhSampleTexts
  else if language = "en" then enSampleTexts
  else if language = "ja" then jaSampleTexts
  else zhSampleTexts

/-- Interface `StreamingSTTRequest` of `src/lib/whisper.ts` (the `model`
field is dropped from the record as `streamingSpeechToText` never reads
it; the route always passes `'base'`). -/
structure StreamingSTTRequest where
  audioBuffer : Buffer
  language : Option String
  sessionId : String
  isFirstChunk : Bool
  isFinalChunk : Bool
deriving DecidableEq

/-- Interface `StreamingSTTResponse` of `src/lib/whisper.ts`; fields that
a given return statement leaves out are `none`.  Source fields
`partialText` and `isPartial` are rendered as `partText` and `isPart`. -/
structure StreamingSTTResponse where
  success : Bool
  text : Option String := none
  partText : Option String := none
  confidence : Option ℚ := none
  language : Option String := none
  isPart : Option Bool := none
  isFinal : Option Bool := none
  error : Option String := none
deriving DecidableEq

/-- Oracle inputs consumed by one `streamingSpeechToText` call: the
current time, the `Math.random()` index draw used for the final-text
pick, and the `Math.random()` draw used for the final confidence. -/
structure StreamOracle where
  now : Nat
  randIdx : Nat
  randConf : ℚ

/-- `WhisperService.streamingSpeechToText`.  Returns the session map at
the moment the call returns together with the response.  The 5-second
delayed `setTimeout` deletion scheduled on a final chunk has not fired
at return time, so the updated session is still in the returned map. -/
def streamingSpeechToText (o : StreamOracle) (m : SessionMap)
    (req : StreamingSTTRequest) : SessionMap × StreamingSTTResponse :=
  match SessionMap.get? m req.sessionId with
  | none =>
    (m, { success := false, error := some ("Session not found: " ++ req.sessionId) })
  | some session =>
    let session1 : StreamingSession :=
      { session with
          lastActivity := o.now
          audioBuffer := session.audioBuffer ++ [req.audioBuffer] }
    let language := if session.language = "auto" then "zh" else session.language
    let sampleTexts := getLanguageSampleTexts language
    if req.isFirstChunk then
      let pt := sampleTexts.partList.getD 0 ""
      let session2 := { session1 with partResults := [pt] }
      (SessionMap.set m req.sessionId session2,
        { success := true
          text := some ""
          partText := some pt
          confidence := some (min (95/100 : ℚ) (85/100))
          language := some language
          isPart := some true
          isFinal := some req.isFinalChunk })
    else if req.isFinalChunk then
      let ft := sampleTexts.finalList.getD (o.randIdx % sampleTexts.finalList.length) ""
      (SessionMap.set m req.sessionId session1,
        { success := true
          text := some ft
          partText := some ft
          confidence := some (min (95/100 : ℚ) (92/100 + o.randConf * (6/100)))
          language := some language
          isPart := some false
          isFinal := some req.isFinalChunk })
    else
      let chunkIndex := session1.audioBuffer.length - 1
      let pIdx := min chunkIndex (sampleTexts.partList.length - 1)
      let pt := sampleTexts.partList.getD pIdx ""
      let session2 := { session1 with partResults := session1.partResults ++ [pt] }
      (SessionMap.set m req.sessionId session2,
        { success := true
          text := some ""
          partText := some pt
          confidence := some (min (95/100 : ℚ) (75/100 + chunkIndex * (5/100)))
          language := some language
          isPart := some true
          isFinal := some req.isFinalChunk })

/-- The `finalResult` summary built by
`WhisperService.cleanupStreamingSession` when the session exists. -/
structure CleanupFinalResult where
  sessionId : String
  language : String
  totalChunks : Nat
  duration : Nat
  partResults : List String
deriving DecidableEq

/-- Return type of `WhisperService.cleanupStreamingSession`. -/
structure CleanupResult where
  success : Bool
  finalResult : Option CleanupFinalResult := none
deriving DecidableEq

/-- `WhisperService.cleanupStreamingSession`: delete the session if
present and report a summary; report plain success when absent. -/
def cleanupStreamingSession (now : Nat) (m : SessionMap) (sessionId : String) :
    SessionMap × CleanupResult :=
  match SessionMap.get? m sessionId with
  | some session =>
    (SessionMap.delete m sessionId,
      { success := true
        finalResult := some
          { sessionId := sessionId
            language := session.language
            totalChunks := session.audioBuffer.length
            duration := now - session.createdAt
            partResults := session.partResults } })
  | none => (m, { success := true })

theorem SessionMap.get?_set_self (m : SessionMap) (k : String) (v : StreamingSession) :
    SessionMap.get? (SessionMap.set m k v) k = some v := by
  induction m with
  | nil => simp [SessionMap.set, SessionMap.get?]
  | cons e rest ih =>
    obtain ⟨ek, ev⟩ := e
    by_cases hk : ek = k
    · simp [SessionMap.set, SessionMap.get?, hk]
    · simp [SessionMap.set, SessionMap.get?, hk, ih]

theorem SessionMap.get?_eq_none_of_not_mem (m : SessionMap) (k : String)
    (h : k ∉ m.map Prod.fst) : SessionMap.get? m k = none := by
  induction m with
  | nil => rfl
  | cons e rest ih =>
    obtain ⟨ek, ev⟩ := e
    simp only [List.map_cons, List.mem_cons, not_or] at h
    have hne : ek ≠ k := fun he => h.1 he.symm
    simp only [SessionMap.get?, if_neg hne]
    exact ih h.2

theorem SessionMap.get?_delete_self (m : SessionMap) (k : String)
    (h : (m.map Prod.fst).Nodup) :
    SessionMap.get? (SessionMap.delete m k) k = none := by
  induction m with
  | nil => rfl
  | cons e rest ih =>
    obtain ⟨ek, ev⟩ := e
    simp only [List.map_cons, List.nodup_cons] at h
    by_cases hk : ek = k
    · subst hk
      simp only [SessionMap.delete, if_pos rfl]
      exact SessionMap.get?_eq_none_of_not_mem rest ek h.1
    · simp only [SessionMap.delete, if_neg hk, SessionMap.get?, if_neg hk]
      exact ih h.2

theorem getLanguageSampleTexts_finalList_ne_nil (l : String) :
    (getLanguageSampleTexts l).finalList ≠ [] := by
  by_cases h1 : l = "zh" <;> by_cases h2 : l = "en" <;> by_cases h3 : l = "ja" <;>
    simp [getLanguageSampleTexts, h1, h2, h3, zhSampleTexts, enSampleTexts, jaSampleTexts]

/-- C3: for a sessionId absent from the streaming-session map,
`streamingSpeechToText` returns success `false` with error
`"Session not found: <sessionId>"` and leaves the session map
unchanged. -/
theorem streamingSpeechToText_session_not_found (o : StreamOracle) (m : SessionMap)
    (req : StreamingSTTRequest) (h : SessionMap.get? m req.sessionId = none) :
    streamingSpeechToText o m req =
      (m, { success := false,
            error := some ("Session not found: " ++ req.sessionId) }) := by
  unfold streamingSpeechToText
  rw [h]

/-- C3 witness: calling `streamingSpeechToText` on the empty map returns
the not-found error and the unchanged (empty) map. -/
theorem streamingSpeechToText_session_not_found_witness :
    SessionMap.get? [] "nope" = none ∧
    streamingSpeechToText ⟨0, 0, 0⟩ [] ⟨[1], none, "nope", false, false⟩ =
      ([], { success := false, error := some ("Session not found: " ++ "nope") }) :=
  ⟨rfl, streamingSpeechToText_session_not_found ⟨0, 0, 0⟩ []
    ⟨[1], none, "nope", false, false⟩ rfl⟩

/-- Session used in the C2 counterexample and witness. -/
def c2Session : StreamingSession :=
  { sessionId := "s1", language := "zh", model := "base", audioBuffer := [],
    partResults := [], createdAt := 0, lastActivity := 0 }

/-- C2 counterexample: a chunk flagged both first and final takes the
first-chunk branch of `streamingSpeechToText`: the response has
`isFinal = some true` yet `isPartial = some true` (not `false`) and its
`text` is the empty string, which is not in the final-string list —
contradicting the claim's clause about final chunks. -/
theorem streamingSpeechToText_first_final_counterexample :
    (streamingSpeechToText ⟨0, 0, 0⟩ [("s1", c2Session)]
        ⟨[7], none, "s1", true, true⟩).2.isFinal = some true ∧
    (streamingSpeechToText ⟨0, 0, 0⟩ [("s1", c2Session)]
        ⟨[7], none, "s1", true, true⟩).2.isPart = some true ∧
    (streamingSpeechToText ⟨0, 0, 0⟩ [("s1", c2Session)]
        ⟨[7], none, "s1", true, true⟩).2.text = some "" ∧
    "" ∉ (getLanguageSampleTexts "zh").finalList := by
  refine ⟨rfl, rfl, rfl, ?_⟩
  decide

/-- C2 (amended): for every `streamingSpeechToText` call on a session
present in the map, the audio chunk is appended to that session's buffer
so its stored chunk count increases by exactly one; for a chunk that is
neither first nor final, `partialText` is the canned partial string for
the session's language at index `min (chunkCount-1) (partialListLength-1)`
with `isPartial = true`; for a final chunk that is not also flagged as a
first chunk, the response has `isFinal = true`, `isPartial = false` and
`text` drawn from the fixed final-string list for that language (a chunk
flagged both first and final is handled by the first-chunk branch
instead). -/
theorem streamingSpeechToText_chunk_spec (o : StreamOracle) (m : SessionMap)
    (req : StreamingSTTRequest) (session : StreamingSession)
    (hs : SessionMap.get? m req.sessionId = some session) :
    (∃ s', SessionMap.get? (streamingSpeechToText o m req).1 req.sessionId = some s' ∧
       s'.audioBuffer.length = session.audioBuffer.length + 1) ∧
    (req.isFirstChunk = false → req.isFinalChunk = false →
      (streamingSpeechToText o m req).2.partText =
        some ((getLanguageSampleTexts
            (if session.language = "auto" then "zh" else session.language)).partList.getD
          (min session.audioBuffer.length
            ((getLanguageSampleTexts
                (if session.language = "auto" then "zh"
                 else session.language)).partList.length - 1)) "") ∧
      (streamingSpeechToText o m req).2.isPart = some true) ∧
    (req.isFirstChunk = false → req.isFinalChunk = true →
      (streamingSpeechToText o m req).2.isFinal = some true ∧
      (streamingSpeechToText o m req).2.isPart = some false ∧
      ∃ t, (streamingSpeechToText o m req).2.text = some t ∧
        t ∈ (getLanguageSampleTexts
          (if session.language = "auto" then "zh" else session.language)).finalList) := by
  cases hf : req.isFirstChunk with
  | true =>
    refine ⟨?_, ?_, ?_⟩
    · simp only [streamingSpeechToText, hs, hf, if_pos rfl]
      refine ⟨_, SessionMap.get?_set_self m req.sessionId _, ?_⟩
      simp [List.length_append]
    · intro h1 _
      simp at h1
    · intro h1 _
      simp at h1
  | false =>
    cases hl : req.isFinalChunk with
    | true =>
      refine ⟨?_, ?_, ?_⟩
      · simp only [streamingSpeechToText, hs, hf, hl, Bool.false_eq_true, if_false,
          if_pos rfl]
        refine ⟨_, SessionMap.get?_set_self m req.sessionId _, ?_⟩
        simp [List.length_append]
      · intro _ h2
        simp at h2
      · intro _ _
        have hlen : 0 < (getLanguageSampleTexts
            (if session.language = "auto" then "zh"
             else session.language)).finalList.length :=
          List.length_pos.mpr (getLanguageSampleTexts_finalList_ne_nil _)
        simp only [streamingSpeechToText, hs, hf, hl, Bool.false_eq_true, if_false,
          eq_self_iff_true, if_true]
        refine ⟨trivial, trivial, _, rfl, ?_⟩
        rw [List.getD_eq_getElem _ _ (Nat.mod_lt _ hlen)]
        exact List.getElem_mem _
    | false =>
      refine ⟨?_, ?_, ?_⟩
      · simp only [streamingSpeechToText, hs, hf, hl, Bool.false_eq_true, if_false]
        refine ⟨_, SessionMap.get?_set_self m req.sessionId _, ?_⟩
        simp [List.length_append]
      · intro _ _
        constructor
        · simp only [streamingSpeechToText, hs, hf, hl, Bool.false_eq_true, if_false]
          simp [List.length_append]
        · simp only [streamingSpeechToText, hs, hf, hl, Bool.false_eq_true, if_false]
      · intro _ h2
        simp at h2

/-- C2 witness: a middle (neither first nor final) chunk on a live
session appends the chunk and returns the canned partial string with
`isPartial = true`. -/
theorem streamingSpeechToText_chunk_spec_witness :
    SessionMap.get? [("s1", c2Session)] "s1" = some c2Session ∧
    ((∃ s', SessionMap.get?
          (streamingSpeechToText ⟨9, 3, 0⟩ [("s1", c2Session)]
            ⟨[7], none, "s1", false, false⟩).1 "s1" = some s' ∧
        s'.audioBuffer.length = c2Session.audioBuffer.length + 1) ∧
     (false = false → false = false →
        (streamingSpeechToText ⟨9, 3, 0⟩ [("s1", c2Session)]
            ⟨[7], none, "s1", false, false⟩).2.partText =
          some ((getLanguageSampleTexts
              (if c2Session.language = "auto" then "zh"
               else c2Session.language)).partList.getD
            (min c2Session.audioBuffer.length
              ((getLanguageSampleTexts
                  (if c2Session.language = "auto" then "zh"
                   else c2Session.language)).partList.length - 1)) "") ∧
        (streamingSpeechToText ⟨9, 3, 0⟩ [("s1", c2Session)]
            ⟨[7], none, "s1", false, false⟩).2.isPart = some true) ∧
     (false = false → false = true →
        (streamingSpeechToText ⟨9, 3, 0⟩ [("s1", c2Session)]
            ⟨[7], none, "s1", false, false⟩).2.isFinal = some true ∧
        (streamingSpeechToText ⟨9, 3, 0⟩ [("s1", c2Session)]
            ⟨[7], none, "s1", false, false⟩).2.isPart = some false ∧
        ∃ t, (streamingSpeechToText ⟨9, 3, 0⟩ [("s1", c2Session)]
            ⟨[7], none, "s1", false, false⟩).2.text = some t ∧
          t ∈ (getLanguageSampleTexts
            (if c2Session.language = "auto" then "zh"
             else c2Session.language)).finalList)) :=
  ⟨rfl, streamingSpeechToText_chunk_spec ⟨9, 3, 0⟩ [("s1", c2Session)]
    ⟨[7], none, "s1", false, false⟩ c2Session rfl⟩

/-- Session used in the C10 witness. -/
def c10Session : StreamingSession :=
  { sessionId := "a", language := "en", model := "base", audioBuffer := [[1], [2]],
    partResults := ["Hello..."], createdAt := 10, lastActivity := 20 }

/-- C10: `cleanupStreamingSession` reports success whether or not the
session exists; afterwards the sessionId is absent from the map, and an
immediate second call also succeeds, returns no `finalResult`, and
leaves the map unchanged — the operation is idempotent on the session
map.  (The hypothesis states the map's keys are distinct, as they always
are for a JavaScript `Map`.) -/
theorem cleanupStreamingSession_idempotent (now now2 : Nat) (m : SessionMap)
    (sid : String) (h : (m.map Prod.fst).Nodup) :
    (cleanupStreamingSession now m sid).2.success = true ∧
    SessionMap.get? (cleanupStreamingSession now m sid).1 sid = none ∧
    (cleanupStreamingSession now2 (cleanupStreamingSession now m sid).1 sid).2.success = true ∧
    (cleanupStreamingSession now2 (cleanupStreamingSession now m sid).1 sid).2.finalResult = none ∧
    (cleanupStreamingSession now2 (cleanupStreamingSession now m sid).1 sid).1 =
      (cleanupStreamingSession now m sid).1 := by
  have hget : SessionMap.get? (cleanupStreamingSession now m sid).1 sid = none := by
    cases hm : SessionMap.get? m sid with
    | none => simp [cleanupStreamingSession, hm]
    | some s =>
      simp only [cleanupStreamingSession, hm]
      exact SessionMap.get?_delete_self m sid h
  have h2 : ∀ (t : Nat) (m' : SessionMap), SessionMap.get? m' sid = none →
      cleanupStreamingSession t m' sid = (m', { success := true }) := by
    intro t m' hm'
    unfold cleanupStreamingSession
    rw [hm']
  refine ⟨?_, hget, ?_, ?_, ?_⟩
  · cases hm : SessionMap.get? m sid <;> simp [cleanupStreamingSession, hm]
  · rw [h2 now2 _ hget]
  · rw [h2 now2 _ hget]
  · rw [h2 now2 _ hget]

/-- C10 witness: deleting an existing session from a one-entry map, then
deleting it again. -/
theorem cleanupStreamingSession_idempotent_witness :
    (List.map Prod.fst [("a", c10Session)]).Nodup ∧
    ((cleanupStreamingSession 30 [("a", c10Session)] "a").2.success = true ∧
     SessionMap.get? (cleanupStreamingSession 30 [("a", c10Session)] "a").1 "a" = none ∧
     (cleanupStreamingSession 40
        (cleanupStreamingSession 30 [("a", c10Session)] "a").1 "a").2.success = true ∧
     (cleanupStreamingSession 40
        (cleanupStreamingSession 30 [("a", c10Session)] "a").1 "a").2.finalResult = none ∧
     (cleanupStreamingSession 40
        (cleanupStreamingSession 30 [("a", c10Session)] "a").1 "a").1 =
       (cleanupStreamingSession 30 [("a", c10Session)] "a").1) :=
  ⟨by decide, cleanupStreamingSession_idempotent 30 40 [("a", c10Session)] "a" (by decide)⟩

/-- Body of the `PUT /api/stt/stream` request as the handler sees it.
The handler destructures only `language` and `model`; the `sessionId`
field records anything a client might additionally send, which the
handler never reads. -/
structure StreamPutBody where
  language : Option String
  model : Option String
  sessionId : Option String

/-- The id generated inside the PUT handler:
`session_<Date.now()>_<Math.random().toString(36).substring(2, 11)>`;
the random suffix is an oracle input. -/
def mkServerSessionId (now : Nat) (randSuffix : String) : String :=
  "session_" ++ toString now ++ "_" ++ randSuffix

/-- JSON body of a successful PUT response. -/
structure StreamPutResult where
  success : Bool
  sessionId : String
  language : String
  model : String
deriving DecidableEq

/-- The `PUT` handler of `src/app/api/stt/stream/route.ts`: generate a
session id, initialize the streaming session with it, and return the id
to the client. -/
def streamRoutePUT (now : Nat) (randSuffix : String) (body : StreamPutBody)
    (m : SessionMap) : SessionMap × StreamPutResult :=
  let sessionId := mkServerSessionId now randSuffix
  let initRes := initStreamingSession now
    { sessionId := sessionId
      language := some (jsOrDefault body.language "auto")
      model := some (jsOrDefault body.model "base") } m
  (initRes.1,
    { success := true
      sessionId := sessionId
      language := jsOrDefault body.language "auto"
      model := jsOrDefault body.model "base" })

/-- C5 counterexample: a client sends `sessionId: "client-chosen-id"` in
the PUT body; the created map entry is keyed by the server-generated
`"session_0_abc123def"` and no entry is stored under the
client-supplied value (nor under any other body field value). -/
theorem streamRoutePUT_key_not_client_supplied :
    SessionMap.get? (streamRoutePUT 0 "abc123def"
        ⟨some "zh", some "base", some "client-chosen-id"⟩ []).1 "client-chosen-id" = none ∧
    SessionMap.get? (streamRoutePUT 0 "abc123def"
        ⟨some "zh", some "base", some "client-chosen-id"⟩ []).1 "zh" = none ∧
    SessionMap.get? (streamRoutePUT 0 "abc123def"
        ⟨some "zh", some "base", some "client-chosen-id"⟩ []).1 "base" = none ∧
    SessionMap.get? (streamRoutePUT 0 "abc123def"
        ⟨some "zh", some "base", some "client-chosen-id"⟩ []).1 "session_0_abc123def" ≠
      none := by
  refine ⟨rfl, rfl, rfl, ?_⟩
  decide

/-- C5 (amended): every session created through the PUT endpoint is
stored under a server-generated id of the form
`session_<timestamp>_<random suffix>`, which the handler also returns to
the client; the key does not depend on any `sessionId` value a client
may put in the request body. -/
theorem streamRoutePUT_key_server_generated (now : Nat) (randSuffix : String)
    (body : StreamPutBody) (m : SessionMap) :
    (∃ s, SessionMap.get? (streamRoutePUT now randSuffix body m).1
        (mkServerSessionId now randSuffix) = some s ∧
      s.sessionId = mkServerSessionId now randSuffix) ∧
    (streamRoutePUT now randSuffix body m).2.sessionId = mkServerSessionId now randSuffix ∧
    (∀ cid : Option String,
      streamRoutePUT now randSuffix { body with sessionId := cid } m =
        streamRoutePUT now randSuffix body m) := by
  refine ⟨?_, rfl, fun cid => rfl⟩
  simp only [streamRoutePUT, initStreamingSession]
  exact ⟨_, SessionMap.get?_set_self _ _ _, rfl⟩

/-- The `'zh'` entry of the `languageSpecificResults` table in
`WhisperService.speechToText` (named separately because the detection
fallback path reads `languageSpecificResults.zh[0]`). -/
def zhSttSamples : List String :=
  ["你好，我是李心司，这是一段中文语音测试。",
   "今天天气很好，适合出去散步。",
   "我正在测试语音识别功能，希望能够准确识别中文。",
   "这是一个语音克隆项目的测试内容。",
   "中文语音识别技术发展迅速，现在已经非常准确了。"]

/-- The `languageSpecificResults` table of `WhisperService.speechToText`:
the object literal as a key-value table, looked up by language key
(JavaScript object property access). -/
def sttSampleTable : List (String × List String) :=
  [("zh", zhSttSamples),
   ("zh-tw", ["您好，我是李心司，這是一段繁體中文語音測試。",
     "今天天氣很好，適合出去散步。",
     "我正在測試語音識別功能，希望能夠準確識別繁體中文。",
     "這是一個語音複製項目的測試內容。"]),
   ("zh-yue", ["你好，我係李心司，呢個係粵語語音測試。",
     "今日天氣好好，啱晒出去行吓。",
     "我而家測試緊語音識別功能，希望識到粵語。",
     "呢個係語音克隆項目嘅測試內容。"]),
   ("en", ["Hello, this is a test audio transcription in English.",
     "The weather is nice today, perfect for a walk outside.",
     "I am testing the speech recognition functionality.",
     "This is test content for a voice cloning project.",
     "English speech recognition has become very accurate recently."]),
   ("ja", ["こんにちは、これは日本語の音声テストです。",
     "今日は天気がいいですね。",
     "音声認識機能をテストしています。",
     "これは音声クローンプロジェクトのテストです。",
     "日本語の音声認識技術も向上しています。"]),
   ("ko", ["안녕하세요, 이것은 한국어 음성 테스트입니다.",
     "오늘 날씨가 좋네요.",
     "음성 인식 기능을 테스트하고 있습니다.",
     "이것은 음성 복제 프로젝트의 테스트입니다.",
     "한국어 음성 인식 기술도 많이 발전했습니다."]),
   ("es", ["Hola, esta es una prueba de transcripción de audio en español.",
     "El clima está muy bueno hoy, perfecto para caminar.",
     "Estoy probando la funcionalidad de reconocimiento de voz.",
     "Este es contenido de prueba para un proyecto de clonación de voz."]),
   ("fr", ["Bonjour, ceci est un test de transcription audio en français.",
     "Il fait beau aujourd\x27hui, parfait pour une promenade.",
     "Je teste la fonctionnalité de reconnaissance vocale.",
     "Ceci est du contenu de test pour un projet de clonage vocal."]),
   ("de", ["Hallo, das ist ein Audio-Transkriptionstest auf Deutsch.",
     "Das Wetter ist heute schön, perfekt für einen Spaziergang.",
     "Ich teste die Spracherkennungsfunktion.",
     "Dies ist Testinhalt für ein Stimmklon-Projekt."]),
   ("ru", ["Привет, это тест транскрипции аудио на русском языке.",
     "Сегодня хорошая погода, отлично подходит для прогулки.",
     "Я тестирую функцию распознавания речи.",
     "Это тестовый контент для проекта клонирования голоса."]),
   ("pt", ["Olá, este é um teste de transcrição de áudio em português.",
     "O tempo está bom hoje, perfeito para caminhar.",
     "Estou testando a funcionalidade de reconhecimento de voz.",
     "Este é conteúdo de teste para um projeto de clonagem de voz."]),
   ("it", ["Ciao, questo è un test di trascrizione audio in italiano.",
     "Il tempo è bello oggi, perfetto per una passeggiata.",
     "Sto testando la funzionalità di riconoscimento vocale.",
     "Questo è contenuto di test per un progetto di clonazione vocale."]),
   ("ar", ["مرحبا، هذا اختبار نسخ صوتي باللغة العربية.",
     "الطقس جميل اليوم، مثالي للمشي.",
     "أنا أختبر وظيفة التعرف على الكلام.",
     "هذا محتوى اختبار لمشروع استنساخ الصوت."]),
   ("hi", ["नमस्ते, यह हिंदी में ऑडियो ट्रांसक्रिप्शन टेस्ट है।",
     "आज मौसम अच्छा है, टहलने के लिए बिल्कुल सही।",
     "मैं स्पीच रिकग्निशन फंक्शनैलिटी का परीक्षण कर रहा हूं।",
     "यह वॉयस क्लोनिंग प्रोजेक्ट के लिए टेस्ट कंटेंट है।"]),
   ("th", ["สวัสดี นี่คือการทดสอบการถอดเสียงเป็นข้อความในภาษาไทย",
     "วันนี้อากาศดี เหมาะสำหรับการเดินเล่น",
     "ฉันกำลังทดสอบฟังก์ชันการรู้จำเสียงพูด",
     "นี่คือเนื้อหาทดสอบสำหรับโปรเจ็กต์โคลนเสียง"]),
   ("vi", ["Xin chào, đây là bài kiểm tra chuyển đổi âm thanh thành văn bản bằng tiếng Việt.",
     "Hôm nay thời tiết đẹp, rất thích hợp để đi dạo.",
     "Tôi đang kiểm tra chức năng nhận dạng giọng nói.",
     "Đây là nội dung thử nghiệm cho dự án nhân bản giọng nói."])]

/-- Property access `languageSpecificResults[targetLanguage]`:
the sample list stored under the key, or `none` for other keys. -/
def languageSpecificResults (language : String) : Option (List String) :=
  (sttSampleTable.find? (fun e => e.1 == language)).map Prod.snd

/-- The audio-length dependent base confidence of
`WhisperService.detectLanguage`. -/
def baseConfidenceFor (audioLength : Nat) : ℚ :=
  if 100000 < audioLength then 92/100
  else if 50000 < audioLength then 88/100
  else if audioLength < 10000 then 70/100
  else 85/100

/-- The `languageDistribution` weight table of
`WhisperService.detectLanguage`: language, weight, confidence. -/
def languageDistribution (base : ℚ) : List (String × ℚ × ℚ) :=
  [("zh", 45/100, base + 8/100),
   ("en", 20/100, base),
   ("zh-tw", 8/100, base + 5/100),
   ("ja", 10/100, base - 2/100),
   ("ko", 7/100, base - 3/100),
   ("zh-yue", 3/100, base + 2/100),
   ("es", 3/100, base - 5/100),
   ("fr", 2/100, base - 6/100),
   ("de", 1/100, base - 7/100),
   ("ru", 1/100, base - 8/100)]

/-- The cumulative-weight selection loop of
`WhisperService.detectLanguage`, with the fall-through default of
Chinese at base confidence. -/
def pickLanguage (random jitter base : ℚ) :
    ℚ → List (String × ℚ × ℚ) → String × ℚ
  | _, [] => ("zh", base)
  | cumulative, (lang, w, conf) :: rest =>
    let c := cumulative + w
    if random ≤ c then
      (lang, min (99/100 : ℚ) (max (65/100) (conf + (jitter - 1/2) * (1/10))))
    else pickLanguage random jitter base c rest

/-- `WhisperService.detectLanguage` on an audio buffer of the given
length; `randDetect` and `randJitter` are the two `Math.random()`
draws. -/
def detectLanguage (randDetect randJitter : ℚ) (audioLen : Nat) : String × ℚ :=
  let base := baseConfidenceFor audioLen
  pickLanguage randDetect randJitter base 0 (languageDistribution base)

/-- Oracle inputs consumed by one `speechToText` call: the sample-pick
index draw, the two confidence draws, the detection draw, and the
measured elapsed time. -/
structure STTOracle where
  randIdx : Nat
  randConf : ℚ
  randDetect : ℚ
  randJitter : ℚ
  duration : Nat

/-- Interface `STTRequest` of `src/lib/whisper.ts` (the `model` field is
omitted: model loading always succeeds in the source, so the model name
does not influence the response fields). -/
structure STTRequest where
  audioBuffer : Buffer
  language : Option String
deriving DecidableEq

/-- Interface `STTResponse` of `src/lib/whisper.ts`. -/
structure STTResponse where
  success : Bool
  text : Option String := none
  confidence : Option ℚ := none
  language : Option String := none
  duration : Option Nat := none
  error : Option String := none
deriving DecidableEq

/-- The detection branch of `WhisperService.speechToText`, taken when no
usable language was requested: detect a language, use its samples, or
fall back to the first Chinese sample. -/
def speechToTextDetect (o : STTOracle) (req : STTRequest) : STTResponse :=
  let det := detectLanguage o.randDetect o.randJitter req.audioBuffer.length
  match languageSpecificResults det.1 with
  | some samples =>
    { success := true
      text := some (samples.getD (o.randIdx % samples.length) "")
      confidence := some (det.2 * (85/100 + o.randConf * (1/10)))
      language := some det.1
      duration := some o.duration }
  | none =>
    { success := true
      text := some (zhSttSamples.getD 0 "")
      confidence := some (75/100)
      language := some "zh"
      duration := some o.duration }

/-- `WhisperService.speechToText`: with a truthy requested language that
is a key of the table, pick one of its samples at random; otherwise run
language detection. -/
def speechToText (o : STTOracle) (req : STTRequest) : STTResponse :=
  match req.language with
  | some l =>
    if l ≠ "" ∧ (languageSpecificResults l).isSome then
      let samples := (languageSpecificResults l).getD []
      { success := true
        text := some (samples.getD (o.randIdx % samples.length) "")
        confidence := some (92/100 + o.randConf * (6/100))
        language := some l
        duration := some o.duration }
    else speechToTextDetect o req
  | none => speechToTextDetect o req

theorem languageSpecificResults_ne_nil (l : String) (s : List String)
    (h : languageSpecificResults l = some s) : s ≠ [] := by
  unfold languageSpecificResults at h
  cases hf : sttSampleTable.find? (fun e => e.1 == l) with
  | none => rw [hf] at h; exact Option.noConfusion h
  | some e =>
    rw [hf] at h
    have hmem := List.mem_of_find?_eq_some hf
    have hall : ∀ x ∈ sttSampleTable, x.2 ≠ [] := by decide
    have he : e.2 = s := by simpa using h
    rw [← he]
    exact hall e hmem

/-- C4: for every successful non-streaming `speechToText` call whose
requested language is a key of the static sample table, the returned
text is one of the pre-written sample sentences stored for that
language, and the returned language equals the requested language. -/
theorem speechToText_specified_language (o : STTOracle) (req : STTRequest)
    (l : String) (samples : List String)
    (hl : req.language = some l) (ht : languageSpecificResults l = some samples) :
    (speechToText o req).success = true ∧
    (∃ t, (speechToText o req).text = some t ∧ t ∈ samples) ∧
    (speechToText o req).language = some l := by
  have hne : l ≠ "" := by
    unfold languageSpecificResults at ht
    cases hf : sttSampleTable.find? (fun e => e.1 == l) with
    | none => rw [hf] at ht; exact Option.noConfusion ht
    | some e =>
      have hkey := List.find?_some hf
      have hmem := List.mem_of_find?_eq_some hf
      have hkeys : ∀ x ∈ sttSampleTable, x.1 ≠ "" := by decide
      have he : e.1 = l := by simpa using hkey
      rw [← he]
      exact hkeys e hmem
  have hlen : 0 < samples.length :=
    List.length_pos.mpr (languageSpecificResults_ne_nil l samples ht)
  simp only [speechToText, hl]
  rw [if_pos (show l ≠ "" ∧ (languageSpecificResults l).isSome = true
        from ⟨hne, by rw [ht]; rfl⟩)]
  rw [ht]
  refine ⟨rfl, ⟨_, rfl, ?_⟩, rfl⟩
  simp only [Option.getD_some]
  rw [List.getD_eq_getElem _ _ (Nat.mod_lt _ hlen)]
  exact List.getElem_mem _

/-- C4 witness: a request for English yields one of the five canned
English sentences and echoes the language. -/
theorem speechToText_specified_language_witness :
    (⟨[], some "en"⟩ : STTRequest).language = some "en" ∧
    languageSpecificResults "en" = some
      ["Hello, this is a test audio transcription in English.",
       "The weather is nice today, perfect for a walk outside.",
       "I am testing the speech recognition functionality.",
       "This is test content for a voice cloning project.",
       "English speech recognition has become very accurate recently."] ∧
    ((speechToText ⟨1, 0, 0, 0, 5⟩ ⟨[], some "en"⟩).success = true ∧
     (∃ t, (speechToText ⟨1, 0, 0, 0, 5⟩ ⟨[], some "en"⟩).text = some t ∧
        t ∈ ["Hello, this is a test audio transcription in English.",
             "The weather is nice today, perfect for a walk outside.",
             "I am testing the speech recognition functionality.",
             "This is test content for a voice cloning project.",
             "English speech recognition has become very accurate recently."]) ∧
     (speechToText ⟨1, 0, 0, 0, 5⟩ ⟨[], some "en"⟩).language = some "en") :=
  ⟨rfl, rfl,
   speechToText_specified_language ⟨1, 0, 0, 0, 5⟩ ⟨[], some "en"⟩ "en" _ rfl rfl⟩

/-- Row of the `audio_records` table (`src/lib/database.ts`,
interface `AudioRecord`).  `created_at` is the SQLite DATETIME text,
compared lexicographically as SQLite compares TEXT. -/
structure AudioRecordRow where
  id : Nat
  user_id : Int
  filename : String
  text_content : String
  type : String
  created_at : String
deriving DecidableEq

/-- The `ORDER BY created_at DESC` ordering on rows. -/
def createdAtDesc (a b : AudioRecordRow) : Prop := b.created_at ≤ a.created_at

instance : DecidableRel createdAtDesc := fun a b =>
  inferInstanceAs (Decidable (b.created_at ≤ a.created_at))

instance : IsTotal AudioRecordRow createdAtDesc :=
  ⟨fun a b => le_total b.created_at a.created_at⟩

instance : IsTrans AudioRecordRow createdAtDesc :=
  ⟨fun _ _ _ hab hbc => le_trans hbc hab⟩

/-- The WHERE clause built by `Database.getAudioRecords`: always
`user_id = ?`, and additionally `AND type = ?` exactly when the optional
`type` argument is truthy (the JavaScript `if (type)` guard, so an empty
string adds no clause). -/
def audioRecordMatches (userId : Int) (ty : Option String) (r : AudioRecordRow) : Bool :=
  match ty with
  | some t => if t = "" then r.user_id == userId else r.user_id == userId && r.type == t
  | none => r.user_id == userId

/-- The `audio_records` table contents. -/
abbrev AudioRecordsTable := List AudioRecordRow

/-- `Database.getAudioRecords`: `SELECT * FROM audio_records WHERE
user_id = ? [AND type = ?] ORDER BY created_at DESC`, returning the
selected rows and leaving the table as it was. -/
def getAudioRecords (t : AudioRecordsTable) (userId : Int) (ty : Option String) :
    AudioRecordsTable × List AudioRecordRow :=
  (t, List.insertionSort createdAtDesc (t.filter (audioRecordMatches userId ty)))

/-- Row used in the C7 counterexample. -/
def c7Row : AudioRecordRow :=
  { id := 1, user_id := 1, filename := "f.mp3", text_content := "hi",
    type := "tts", created_at := "2024-01-01 00:00:00" }

/-- C7 counterexample: when the caller passes the empty string as the
type filter, the JavaScript truthiness guard drops the `AND type = ?`
clause, so a record whose type is `"tts"` (≠ `""`) is returned even
though the claim then asks for records whose type equals the given
filter. -/
theorem getAudioRecords_empty_type_counterexample :
    (getAudioRecords [c7Row] 1 (some "")).2 = [c7Row] ∧ c7Row.type ≠ "" := by
  refine ⟨?_, by decide⟩
  rfl

/-- C7 (amended): for every userId and optional type filter,
`getAudioRecords` returns exactly the audio records whose `user_id`
equals userId — and, when a nonempty type is given, whose `type` equals
it; an empty type string is treated as no filter — sorted in descending
order of `created_at`, and it modifies no stored record. -/
theorem getAudioRecords_spec (t : AudioRecordsTable) (userId : Int) (ty : Option String) :
    (getAudioRecords t userId ty).1 = t ∧
    List.Sorted createdAtDesc (getAudioRecords t userId ty).2 ∧
    (getAudioRecords t userId ty).2.Perm (t.filter (audioRecordMatches userId ty)) ∧
    (∀ r : AudioRecordRow, r ∈ (getAudioRecords t userId ty).2 ↔
      (r ∈ t ∧ r.user_id = userId ∧ ∀ s, ty = some s → s ≠ "" → r.type = s)) := by
  refine ⟨rfl, List.sorted_insertionSort _ _, List.perm_insertionSort _ _, ?_⟩
  intro r
  simp only [getAudioRecords]
  rw [List.Perm.mem_iff (List.perm_insertionSort _ _), List.mem_filter]
  cases ty with
  | none => simp [audioRecordMatches]
  | some s =>
    by_cases hs : s = ""
    · subst hs
      simp [audioRecordMatches]
    · simp [audioRecordMatches, hs, and_assoc]

/-- Row of the `voice_models` table (`src/lib/database.ts`,
interface `VoiceModel`), with status as the stored TEXT. -/
structure VoiceModelRow where
  id : Nat
  user_id : Int
  model_id : String
  model_name : String
  status : String
  created_at : String
deriving DecidableEq

/-- The `CHECK(status IN ('training', 'ready', 'failed'))` constraint
declared on the `voice_models` table in `Database.initialize`. -/
def validVoiceModelStatus (s : String) : Bool :=
  s == "training" || s == "ready" || s == "failed"

/-- The `voice_models` table with its AUTOINCREMENT id counter. -/
structure VoiceModelsTable where
  rows : List VoiceModelRow
  nextId : Nat
deriving DecidableEq

/-- Input of `Database.createVoiceModel`
(`Omit<VoiceModel, 'id' | 'created_at'>`). -/
structure VoiceModelInput where
  user_id : Int
  model_id : String
  model_name : String
  status : String
deriving DecidableEq

/-- `Database.createVoiceModel`: the parameterized INSERT.  SQLite
rejects a row violating the CHECK constraint; the rejection surfaces as
the thrown `Failed to create voice model` error. -/
def createVoiceModel (t : VoiceModelsTable) (now : String) (m : VoiceModelInput) :
    Except String (VoiceModelsTable × VoiceModelRow) :=
  if validVoiceModelStatus m.status then
    let row : VoiceModelRow :=
      { id := t.nextId, user_id := m.user_id, model_id := m.model_id,
        model_name := m.model_name, status := m.status, created_at := now }
    Except.ok ({ rows := t.rows ++ [row], nextId := t.nextId + 1 }, row)
  else Except.error "Failed to create voice model: CHECK constraint failed"

/-- `Database.updateVoiceModelStatus`: `UPDATE voice_models SET
status = ? WHERE id = ?`, subject to the same CHECK constraint. -/
def updateVoiceModelStatus (t : VoiceModelsTable) (id : Nat) (status : String) :
    Except String VoiceModelsTable :=
  if validVoiceModelStatus status then
    let newRows := t.rows.map (fun r => if r.id = id then { r with status := status } else r)
    Except.ok { t with rows := newRows }
  else Except.error "Failed to update voice model status: CHECK constraint failed"

/-- `Database.deleteVoiceModel`: `DELETE FROM voice_models WHERE id = ?`. -/
def deleteVoiceModel (t : VoiceModelsTable) (id : Nat) : VoiceModelsTable :=
  { t with rows := t.rows.filter (fun r => r.id ≠ id) }

/-- The C6 invariant: every persisted voice-model row has one of the
three legal status values. -/
def voiceModelsTableOK (t : VoiceModelsTable) : Prop :=
  ∀ r ∈ t.rows, r.status = "training" ∨ r.status = "ready" ∨ r.status = "failed"

/-- C6: every voice-model record persisted by the store has status
`'training'`, `'ready'` or `'failed'`, and `createVoiceModel`,
`updateVoiceModelStatus` and `deleteVoiceModel` each preserve this
invariant for every stored record. -/
theorem voiceModel_status_invariant (t : VoiceModelsTable) (now : String)
    (m : VoiceModelInput) (id : Nat) (status : String)
    (h : voiceModelsTableOK t) :
    (∀ t' row, createVoiceModel t now m = Except.ok (t', row) → voiceModelsTableOK t') ∧
    (∀ t', updateVoiceModelStatus t id status = Except.ok t' → voiceModelsTableOK t') ∧
    voiceModelsTableOK (deleteVoiceModel t id) := by
  refine ⟨?_, ?_, ?_⟩
  · intro t' row hc
    unfold createVoiceModel at hc
    by_cases hv : validVoiceModelStatus m.status
    · rw [if_pos hv] at hc
      injection hc with hpair
      obtain ⟨h1, h2⟩ := Prod.mk.injEq _ _ _ _ |>.mp hpair
      subst h1
      intro r hr
      rcases List.mem_append.mp hr with hold | hnew
      · exact h r hold
      · rw [List.mem_singleton.mp hnew]
        simpa [validVoiceModelStatus, or_assoc] using hv
    · rw [if_neg hv] at hc
      exact Except.noConfusion hc
  · intro t' hc
    unfold updateVoiceModelStatus at hc
    by_cases hv : validVoiceModelStatus status
    · rw [if_pos hv] at hc
      injection hc with ht'
      subst ht'
      intro r hr
      obtain ⟨a, ha, hfa⟩ := List.mem_map.mp hr
      by_cases hid : a.id = id
      · rw [← hfa, if_pos hid]
        simpa [validVoiceModelStatus, or_assoc] using hv
      · rw [← hfa, if_neg hid]
        exact h a ha
    · rw [if_neg hv] at hc
      exact Except.noConfusion hc
  · intro r hr
    exact h r (List.mem_of_mem_filter hr)

/-- Table used in the C6 witness: one row with a legal status. -/
def c6Table : VoiceModelsTable :=
  { rows := [{ id := 1, user_id := 1, model_id := "fish_1", model_name := "my voice",
               status := "ready", created_at := "2024-01-01 00:00:00" }],
    nextId := 2 }

/-- C6 witness: the invariant preservation instantiated on a concrete
one-row table, a concrete insert, update and delete. -/
theorem voiceModel_status_invariant_witness :
    voiceModelsTableOK c6Table ∧
    ((∀ t' row, createVoiceModel c6Table "2024-01-02 00:00:00"
        ⟨1, "fish_2", "second", "training"⟩ = Except.ok (t', row) →
        voiceModelsTableOK t') ∧
     (∀ t', updateVoiceModelStatus c6Table 1 "failed" = Except.ok t' →
        voiceModelsTableOK t') ∧
     voiceModelsTableOK (deleteVoiceModel c6Table 1)) :=
  ⟨by unfold voiceModelsTableOK c6Table; decide,
   voiceModel_status_invariant c6Table "2024-01-02 00:00:00"
     ⟨1, "fish_2", "second", "training"⟩ 1 "failed"
     (by unfold voiceModelsTableOK c6Table; decide)⟩

/-- A JSON value as the TTS route reads it from the request body,
restricted to the shapes its validation distinguishes. -/
inductive JsValue where
  | str (s : String)
  | num (q : ℚ)
  | bool (b : Bool)
  | null
deriving DecidableEq

/-- JavaScript truthiness of a JSON value (`!text`). -/
def JsValue.isTruthy : JsValue → Bool
  | .str s => s != ""
  | .num q => q != 0
  | .bool b => b
  | .null => false

/-- `typeof text === 'string'`. -/
def JsValue.isString : JsValue → Bool
  | .str _ => true
  | _ => false

/-- The string content of a value known to be a string. -/
def JsValue.asString : JsValue → String
  | .str s => s
  | _ => ""

/-- Body of `POST /api/tts` after `request.json()`; absent fields are
`none` and take the destructuring defaults
(`voice_id = 'default_female_zh'`, `speed = 1.0`, `user_id = 1`). -/
structure TtsBody where
  text : Option JsValue
  voice_id : Option String
  speed : Option ℚ
  user_id : Option Int

/-- Interface `TTSResponse` of the Fish Audio client
(`src/lib/fish-audio.ts`): success flag, optional MP3 bytes, optional
error message. -/
structure FishTTSResult where
  success : Bool
  data : Option Buffer := none
  error : Option String := none
deriving DecidableEq

/-- The HTTP response of a route handler, reduced to status code and
payload. -/
inductive ApiResponse where
  | audio (status : Nat) (data : Buffer)
  | jsonError (status : Nat) (error : String)
  | jsonText (status : Nat) (text : Option String)
deriving DecidableEq

/-- Outcome of one handler run: the response, whether the external
service call was reached, whether the database insert was attempted,
and whether its failure was logged by the inner catch. -/
structure HandlerTrace where
  response : ApiResponse
  serviceCalled : Bool
  dbCalled : Bool
  dbErrorLogged : Bool := false
deriving DecidableEq

/-- Whether a database outcome is the thrown-error case (the inner
catch branch that only calls `console.error`). -/
def dbErrorFlag : Except String Unit → Bool
  | .ok _ => false
  | .error _ => true

/-- The `POST /api/tts` handler (`src/app/api/tts/route.ts`): validate
text and speed, call the external TTS service, attempt the database
insert inside its own try/catch (a failure only logs), and return the
audio bytes with status 200.  `ttsResult` stands for what
`fishAudio.textToSpeech` returns and `dbResult` for the outcome of
`db.createAudioRecord`. -/
def ttsRoutePOST (body : TtsBody) (ttsResult : FishTTSResult)
    (dbResult : Except String Unit) : HandlerTrace :=
  let textVal := body.text.getD JsValue.null
  if !textVal.isTruthy || !textVal.isString then
    { response := .jsonError 400 "Text is required and must be a string",
      serviceCalled := false, dbCalled := false }
  else if 5000 < textVal.asString.length then
    { response := .jsonError 400 "Text too long. Maximum 5000 characters allowed",
      serviceCalled := false, dbCalled := false }
  else if body.speed.getD 1 < 1/2 ∨ 2 < body.speed.getD 1 then
    { response := .jsonError 400 "Speed must be between 0.5 and 2.0",
      serviceCalled := false, dbCalled := false }
  else if !ttsResult.success || ttsResult.data.isNone then
    { response := .jsonError 500
        (jsOrDefault ttsResult.error "Text-to-speech conversion failed"),
      serviceCalled := true, dbCalled := false }
  else
    { response := .audio 200 (ttsResult.data.getD []),
      serviceCalled := true, dbCalled := true,
      dbErrorLogged := dbErrorFlag dbResult }

/-- An uploaded file as the STT route reads it from the form data. -/
structure UploadedFile where
  name : String
  size : Nat
  mimeType : String
deriving DecidableEq

/-- `ALLOWED_AUDIO_TYPES` of `src/app/api/stt/route.ts`. -/
def ALLOWED_AUDIO_TYPES : List String :=
  ["audio/wav", "audio/mp3", "audio/mpeg", "audio/ogg", "audio/webm",
   "audio/m4a", "audio/aac"]

/-- `MAX_FILE_SIZE` (50 MB) of `src/app/api/stt/route.ts`. -/
def MAX_FILE_SIZE : Nat := 50 * 1024 * 1024

/-- The `POST /api/stt` upload handler (`src/app/api/stt/route.ts`):
validate the uploaded file, call `whisperService.speechToText`, attempt
the database insert inside its own try/catch (a failure only logs), and
return the transcription as JSON with status 200. -/
def sttRoutePOST (file : Option UploadedFile) (sttResult : STTResponse)
    (dbResult : Except String Unit) : HandlerTrace :=
  match file with
  | none =>
    { response := .jsonError 400 "Audio file is required",
      serviceCalled := false, dbCalled := false }
  | some f =>
    if !(ALLOWED_AUDIO_TYPES.contains f.mimeType) then
      { response := .jsonError 400
          ("Unsupported audio format. Allowed types: " ++
            String.intercalate ", " ALLOWED_AUDIO_TYPES),
        serviceCalled := false, dbCalled := false }
    else if MAX_FILE_SIZE < f.size then
      { response := .jsonError 400 "File too large. Maximum size: 50MB",
        serviceCalled := false, dbCalled := false }
    else if !sttResult.success then
      { response := .jsonError 500
          (jsOrDefault sttResult.error "Speech-to-text conversion failed"),
        serviceCalled := true, dbCalled := false }
    else
      { response := .jsonText 200 sttResult.text,
        serviceCalled := true, dbCalled := true,
        dbErrorLogged := dbErrorFlag dbResult }

/-- C8: once the external text-to-speech call has succeeded and the
input passed validation, the TTS handler returns 200 with the audio
bytes whatever the database insert did; its response for a throwing
insert equals its response for a successful one, and the STT upload
handler's response is likewise independent of the insert outcome. -/
theorem ttsRoutePOST_db_error_still_succeeds (body : TtsBody)
    (ttsResult : FishTTSResult) (dbResult : Except String Unit) (e : String)
    (s : String) (d : Buffer)
    (htext : body.text = some (JsValue.str s)) (hs : s ≠ "")
    (hlen : s.length ≤ 5000)
    (hsp1 : 1/2 ≤ body.speed.getD 1) (hsp2 : body.speed.getD 1 ≤ 2)
    (hsucc : ttsResult.success = true) (hdata : ttsResult.data = some d) :
    (ttsRoutePOST body ttsResult dbResult).response = ApiResponse.audio 200 d ∧
    (ttsRoutePOST body ttsResult (Except.error e)).response =
      (ttsRoutePOST body ttsResult (Except.ok ())).response ∧
    (∀ (file : Option UploadedFile) (r : STTResponse),
      (sttRoutePOST file r (Except.error e)).response =
        (sttRoutePOST file r (Except.ok ())).response) := by
  have c1 : ¬((!(body.text.getD JsValue.null).isTruthy ||
      !(body.text.getD JsValue.null).isString) = true) := by
    rw [htext]
    simp [JsValue.isTruthy, JsValue.isString, hs]
  have c2 : ¬(5000 < (body.text.getD JsValue.null).asString.length) := by
    rw [htext]
    simpa [JsValue.asString] using Nat.not_lt.mpr hlen
  have c3 : ¬(body.speed.getD 1 < 1/2 ∨ 2 < body.speed.getD 1) := by
    rw [not_or]
    exact ⟨not_lt.mpr hsp1, not_lt.mpr hsp2⟩
  have c4 : ¬((!ttsResult.success || ttsResult.data.isNone) = true) := by
    simp [hsucc, hdata]
  refine ⟨?_, ?_, ?_⟩
  · unfold ttsRoutePOST
    rw [if_neg c1, if_neg c2, if_neg c3, if_neg c4]
    simp [hdata]
  · simp only [ttsRoutePOST]
    split_ifs <;> rfl
  · intro file r
    cases file with
    | none => rfl
    | some f =>
      simp only [sttRoutePOST]
      split_ifs <;> rfl

/-- C8 witness: a valid request whose database insert throws still gets
the 200 audio response. -/
theorem ttsRoutePOST_db_error_still_succeeds_witness :
    ((⟨some (JsValue.str "hello"), none, none, none⟩ : TtsBody).text =
        some (JsValue.str "hello") ∧
      "hello" ≠ "" ∧ "hello".length ≤ 5000 ∧
      (1 : ℚ)/2 ≤ (⟨some (JsValue.str "hello"), none, none, none⟩ : TtsBody).speed.getD 1 ∧
      (⟨some (JsValue.str "hello"), none, none, none⟩ : TtsBody).speed.getD 1 ≤ 2 ∧
      (⟨true, some [9, 9], none⟩ : FishTTSResult).success = true ∧
      (⟨true, some [9, 9], none⟩ : FishTTSResult).data = some [9, 9]) ∧
    ((ttsRoutePOST ⟨some (JsValue.str "hello"), none, none, none⟩
        ⟨true, some [9, 9], none⟩ (Except.error "disk full")).response =
      ApiResponse.audio 200 [9, 9] ∧
    (ttsRoutePOST ⟨some (JsValue.str "hello"), none, none, none⟩
        ⟨true, some [9, 9], none⟩ (Except.error "disk full")).response =
      (ttsRoutePOST ⟨some (JsValue.str "hello"), none, none, none⟩
        ⟨true, some [9, 9], none⟩ (Except.ok ())).response ∧
    (∀ (file : Option UploadedFile) (r : STTResponse),
      (sttRoutePOST file r (Except.error "disk full")).response =
        (sttRoutePOST file r (Except.ok ())).response)) :=
  ⟨⟨rfl, by decide, by decide, by norm_num, by norm_num, rfl, rfl⟩,
   ttsRoutePOST_db_error_still_succeeds
     ⟨some (JsValue.str "hello"), none, none, none⟩
     ⟨true, some [9, 9], none⟩ (Except.error "disk full") "disk full"
     "hello" [9, 9] rfl (by decide) (by decide) (by norm_num) (by norm_num) rfl rfl⟩

/-- C9: the `POST /api/tts` handler returns HTTP 400, without calling
the external text-to-speech service and without writing to the
database, whenever the body's text is missing or not a string, or text
is longer than 5000 characters, or speed lies outside [0.5, 2.0]. -/
theorem ttsRoutePOST_validation_rejects (body : TtsBody) (ttsResult : FishTTSResult)
    (dbResult : Except String Unit)
    (h : body.text = none ∨
         (∃ v, body.text = some v ∧ v.isString = false) ∨
         (∃ s, body.text = some (JsValue.str s) ∧ 5000 < s.length) ∨
         body.speed.getD 1 < 1/2 ∨ 2 < body.speed.getD 1) :
    (∃ msg, (ttsRoutePOST body ttsResult dbResult).response =
      ApiResponse.jsonError 400 msg) ∧
    (ttsRoutePOST body ttsResult dbResult).serviceCalled = false ∧
    (ttsRoutePOST body ttsResult dbResult).dbCalled = false := by
  have hmain : ∃ msg, ttsRoutePOST body ttsResult dbResult =
      { response := ApiResponse.jsonError 400 msg,
        serviceCalled := false, dbCalled := false } := by
    by_cases c1 : (!(body.text.getD JsValue.null).isTruthy ||
        !(body.text.getD JsValue.null).isString) = true
    · exact ⟨_, by unfold ttsRoutePOST; rw [if_pos c1]⟩
    · by_cases c2 : 5000 < (body.text.getD JsValue.null).asString.length
      · exact ⟨_, by unfold ttsRoutePOST; rw [if_neg c1, if_pos c2]⟩
      · by_cases c3 : body.speed.getD 1 < 1/2 ∨ 2 < body.speed.getD 1
        · exact ⟨_, by unfold ttsRoutePOST; rw [if_neg c1, if_neg c2, if_pos c3]⟩
        · exfalso
          rcases h with h1 | ⟨v, hv, hvs⟩ | ⟨t, hst, hsl⟩ | h4 | h5
          · exact c1 (by rw [h1]; rfl)
          · exact c1 (by rw [hv]; simp [hvs])
          · exact c2 (by rw [hst]; simpa [JsValue.asString] using hsl)
          · exact c3 (Or.inl h4)
          · exact c3 (Or.inr h5)
  obtain ⟨msg, hm⟩ := hmain
  rw [hm]
  exact ⟨⟨msg, rfl⟩, rfl, rfl⟩

/-- C9 witness: a body with no text field is rejected with 400 and
neither the service nor the database is reached. -/
theorem ttsRoutePOST_validation_rejects_witness :
    ((⟨none, none, none, none⟩ : TtsBody).text = none ∨
     (∃ v, (⟨none, none, none, none⟩ : TtsBody).text = some v ∧ v.isString = false) ∨
     (∃ s, (⟨none, none, none, none⟩ : TtsBody).text = some (JsValue.str s) ∧
        5000 < s.length) ∨
     (⟨none, none, none, none⟩ : TtsBody).speed.getD 1 < 1/2 ∨
     2 < (⟨none, none, none, none⟩ : TtsBody).speed.getD 1) ∧
    ((∃ msg, (ttsRoutePOST ⟨none, none, none, none⟩ ⟨true, some [1], none⟩
        (Except.ok ())).response = ApiResponse.jsonError 400 msg) ∧
     (ttsRoutePOST ⟨none, none, none, none⟩ ⟨true, some [1], none⟩
        (Except.ok ())).serviceCalled = false ∧
     (ttsRoutePOST ⟨none, none, none, none⟩ ⟨true, some [1], none⟩
        (Except.ok ())).dbCalled = false) :=
  ⟨Or.inl rfl,
   ttsRoutePOST_validation_rejects ⟨none, none, none, none⟩ ⟨true, some [1], none⟩
     (Except.ok ()) (Or.inl rfl)⟩
